import Mathlib

/-!
Verification of the URL tokenization and featurization pipeline of the
Fast-Website-Classification-with-Robust-Phishing-Detection repository.

The Python sources (src/util.py, src/url_tokenizer.py, src/featurizer.py)
are shallowly embedded: pure string functions become Lean functions on
`String` / `List Char`, Python exceptions become `Except PyError`, and
numpy matrices become `List (List Int)` (floating-point vector entries are
abstracted to integers; every claim below concerns shapes, token counts and
control flow, never float arithmetic).
-/

/-- Python exceptions that the embedded fragment can raise.
`assertionError` carries the message payload of the failed `assert` in
`url_raw_splitter` (the offending URL string). -/
inductive PyError where
  | typeError : PyError
  | attributeError : PyError
  | indexError : PyError
  | assertionError : String → PyError
deriving DecidableEq, Repr

deriving instance DecidableEq for Except

/-- Embeds `util.flatten`: `itertools.chain(*lst_lst)` on a list of lists. -/
def flatten (l : List (List α)) : List α :=
  l.flatten

/-- Embeds `util.flatten_twice` applied to the args list: iterating a Python
tuple yields its two components, so one `flatten` over a list of pairs of
lists gives a list of lists, and the second `flatten` joins those. -/
def flatten_twice (l : List (List α × List α)) : List α :=
  flatten (flatten (l.map (fun pr => [pr.1, pr.2])))

/-- Embeds `util.MIN_SPLIT_LEN`. -/
def MIN_SPLIT_LEN : Nat := 5

/-- Modelled from the spec: `wordninja.split`, the external dictionary-based
sub-word segmentation used by `util.word_splitter` (spec 4.6). Its exact
output is corpus-dependent and not part of the repository; the spec only
requires a concatenation-preserving dictionary segmentation. We pin it on
the concrete strings whose segmentation the repository's own unit tests
assert (src/test_url_tokenizer.py, src/test_util.py) and let every other
string stay unsegmented. -/
def wordninja_split (s : String) : List String :=
  if s = "part8" then ["part", "8"]
  else if s = "geocities" then ["geo", "cities"]
  else if s = "library" then ["library"]
  else if s = "tripod" then ["tripod"]
  else if s = "someword" then ["some", "word"]
  else if s = "mediumlengthpath" then ["medium", "length", "path"]
  else if s = "test-a-domain" then ["test", "a", "domain"]
  else if s = "val11" then ["val", "11"]
  else if s = "val22" then ["val", "22"]
  else if s = "path1" then ["path", "1"]
  else if s = "path2" then ["path", "2"]
  else if s = "page.html" then ["page", "html"]
  else if s = "path.html" then ["path", "html"]
  else if s = "mbraun@ameritech.net" then ["m", "braun", "a", "merit", "ech", "net"]
  else [s]

/-- Embeds `util.word_splitter`: empty strings give `[]`; otherwise the
string is segmented by wordninja when `len(text) >= min_split_len` and kept
whole when shorter. -/
def word_splitter (text : String) (min_split_len : Nat) : List String :=
  if text = "" then []
  else if min_split_len ≤ text.length then wordninja_split text
  else [text]

/-- Models one hexadecimal digit of a percent-escape: its position in the
hex alphabet, case-insensitively. -/
def hexVal (c : Char) : Option Nat :=
  "0123456789abcdef".toList.indexOf? c.toLower

/-- Modelled from the spec: `urllib.parse.unquote` (spec 4.1), the RFC 3986
percent-decoder applied by `url_html_decoder` before entity unescaping.
We decode ASCII escapes and pass malformed or non-ASCII sequences through
unchanged, as the spec prescribes for malformed input. -/
def percentDecodeGo : List Char → List Char
  | [] => []
  | '%' :: h1 :: h2 :: rest =>
    (match hexVal h1, hexVal h2 with
     | some a, some b =>
       if a * 16 + b < 128 then Char.ofNat (a * 16 + b) :: percentDecodeGo rest
       else '%' :: percentDecodeGo (h1 :: h2 :: rest)
     | _, _ => '%' :: percentDecodeGo (h1 :: h2 :: rest))
  | c :: rest => c :: percentDecodeGo rest

/-- Modelled from the spec: `html.unescape` (spec 4.1). We cover the named
and numeric entities the spec and the repository tests exercise (including
the semicolon-less `&amp` that Python also unescapes); other characters
pass through unchanged. -/
def htmlUnescapeGo : List Char → List Char
  | [] => []
  | '&' :: 'a' :: 'm' :: 'p' :: ';' :: rest => '&' :: htmlUnescapeGo rest
  | '&' :: 'a' :: 'm' :: 'p' :: rest => '&' :: htmlUnescapeGo rest
  | '&' :: 'l' :: 't' :: ';' :: rest => '<' :: htmlUnescapeGo rest
  | '&' :: 'g' :: 't' :: ';' :: rest => '>' :: htmlUnescapeGo rest
  | '&' :: 'q' :: 'u' :: 'o' :: 't' :: ';' :: rest => '"' :: htmlUnescapeGo rest
  | '&' :: 'a' :: 'p' :: 'o' :: 's' :: ';' :: rest => Char.ofNat 39 :: htmlUnescapeGo rest
  | '&' :: '#' :: '3' :: '9' :: ';' :: rest => Char.ofNat 39 :: htmlUnescapeGo rest
  | c :: rest => c :: htmlUnescapeGo rest

/-- Embeds `url_tokenizer.url_html_decoder`: percent-decode first, then
HTML entity unescaping, in that order. -/
def url_html_decoder (raw_url : String) : String :=
  String.mk (htmlUnescapeGo (percentDecodeGo raw_url.toList))

/-- Python's `str.lower()`, character by character (ASCII fragment). -/
def pyLower (s : String) : String :=
  String.mk (s.toList.map Char.toLower)

/-- Python's regex word character, `\w` (ASCII fragment). -/
def isWordChar (c : Char) : Bool :=
  c.isAlphanum || c == '_'

/-- Character class of the domain group in `url_raw_splitter`:
`[-a-zA-Z0-9@:%._\+~#=]`. -/
def classA (c : Char) : Bool :=
  c.isAlphanum || "-@:%._+~#=".toList.contains c

/-- Character class of the domain ending, `[a-zA-Z0-9()]`. -/
def classB (c : Char) : Bool :=
  c.isAlphanum || c == '(' || c == ')'

/-- Character class of the path group, `[-a-zA-Z0-9()@:%_\+;.~#&//=]`. -/
def classC (c : Char) : Bool :=
  c.isAlphanum || "-()@:%_+;.~#&/=".toList.contains c

/-- Character class of the args group: the path class plus `?`. -/
def classD (c : Char) : Bool :=
  classC c || c == '?'

/-- Descending list `[n, n-1, ..., 1]`, the order in which a greedy Python
quantifier tries repetition counts while backtracking. -/
def countdown : Nat → List Nat
  | 0 => []
  | n + 1 => (n + 1) :: countdown n

/-- Matches `(https?):\/\/` at the start of the string: the greedy `s?`
prefers `https` and backtracks to `http` when `://` does not follow. -/
def stripProto : List Char → Option (String × List Char)
  | 'h' :: 't' :: 't' :: 'p' :: 's' :: ':' :: '/' :: '/' :: rest => some ("https", rest)
  | 'h' :: 't' :: 't' :: 'p' :: ':' :: '/' :: '/' :: rest => some ("http", rest)
  | _ => none

/-- Python's `\b` between the matched domain-ending characters `b` and the
remaining input: the position is a boundary when exactly one side is a word
character (a missing next character counts as non-word). -/
def domainBoundary (b after : List Char) : Bool :=
  match b.getLast? with
  | none => false
  | some p =>
    isWordChar p != (match after with
      | [] => false
      | c :: _ => isWordChar c)

/-- Tries the domain alternative `[classA]+ \. [classB]{1,12} \b` with the
first group fixed to `k` characters: the literal dot must follow, then the
greedy `{1,12}` tries ending lengths `j` from largest to smallest until the
word boundary holds. Returns (first group, ending, rest of input). -/
def tryDomainAt (rest : List Char) (k : Nat) :
    Option (List Char × List Char × List Char) :=
  match rest.drop k with
  | '.' :: r2 =>
    (countdown (min 12 ((r2.takeWhile classB).length))).findSome? (fun j =>
      if domainBoundary (r2.take j) (r2.drop j) then
        some (rest.take k, r2.take j, r2.drop j)
      else none)
  | _ => none

/-- Embeds the anchored match of the regular expression of
`url_tokenizer.url_raw_splitter` against an (already lowercased) string:
protocol, then the greedy domain group with backtracking (`k` characters of
`classA` tried from largest to smallest), then the greedy path run, an
optional `?`, and the greedy args run. Returns the four capture groups. -/
def urlRegexMatch (cs : List Char) : Option (String × String × String × String) :=
  (stripProto cs).bind (fun pr =>
    ((countdown ((pr.2.takeWhile classA).length)).findSome? (tryDomainAt pr.2)).map
      (fun abr =>
        let p := abr.2.2.takeWhile classC
        let r2 := abr.2.2.dropWhile classC
        let args :=
          match r2 with
          | '?' :: r3 => r3.takeWhile classD
          | _ => r2.takeWhile classD
        (pr.1, String.mk (abr.1 ++ '.' :: abr.2.1), String.mk p, String.mk args)))

/-- Embeds `url_tokenizer.url_raw_splitter`: match the URL grammar against
the lowercased string; on failure the `assert` raises carrying the original
offending string, on success the four raw groups are returned. -/
def url_raw_splitter (url : String) : Except PyError (String × String × String × String) :=
  match urlRegexMatch (pyLower url).toList with
  | some groups => Except.ok groups
  | none => Except.error (PyError.assertionError url)

/-- Embeds Python's `str.split(sep)` for a one-character separator, on
character lists: every separator occurrence cuts, empty fields are kept,
and the empty string yields one empty field. `acc` holds the characters of
the current field in reverse. -/
def splitSepGo (sep : Char) (acc : List Char) : List Char → List (List Char)
  | [] => [acc.reverse]
  | c :: rest =>
    if c = sep then acc.reverse :: splitSepGo sep [] rest
    else splitSepGo sep (c :: acc) rest

/-- Python `s.split(sep)` for a one-character separator. -/
def splitSep (sep : Char) (cs : List Char) : List (List Char) :=
  splitSepGo sep [] cs

/-- Python `s.split(sep)` at the `String` level. -/
def pySplit (sep : Char) (s : String) : List String :=
  (splitSep sep s.toList).map String.mk

/-- The tokenized domain data: sub-domain tokens, main-domain tokens and
the domain ending, as in `url_tokenizer.DomainData`. -/
abbrev DomainData := List String × List String × String

/-- A tokenized parameter/value pair of the argument zone. -/
abbrev ParamValPair := List String × List String

/-- The tokenized URL 4-tuple, as in `url_tokenizer.UrlData`. -/
abbrev UrlData := String × DomainData × List String × List ParamValPair

instance : DecidableEq (DomainData × List String × List ParamValPair) :=
  inferInstance

instance : DecidableEq UrlData :=
  inferInstance

/-- Embeds `url_tokenizer.url_domains_handler`: split the domain string on
dots; the last label is the ending, the second-to-last is word-split into
the main domain, all earlier labels are word-split and flattened into the
sub-domains. Python evaluates `splitted[-2]` first, so fewer than two
labels raises `IndexError`; we read the trailing labels off the reversed
list, which is the same selection `splitted[:-2]`, `splitted[-2]`,
`splitted[-1]` makes. -/
def url_domains_handler (url_domains : String) : Except PyError DomainData :=
  let splitted := pySplit '.' url_domains
  match splitted.reverse with
  | ending :: main :: subs_rev =>
    Except.ok
      (flatten (subs_rev.reverse.map (fun w => word_splitter w MIN_SPLIT_LEN)),
       word_splitter main MIN_SPLIT_LEN,
       ending)
  | _ => Except.error PyError.indexError

/-- Embeds `url_tokenizer.url_path_handler`: split the path on `/`, drop
empty segments, word-split each segment and flatten; when the raw path
contains `@` anywhere, append a literal `"@"` token. -/
def url_path_handler (url_path : String) : List String :=
  let token_lst :=
    flatten (((pySplit '/' url_path).filter (fun t => t ≠ "")).map
      (fun t => word_splitter t MIN_SPLIT_LEN))
  if url_path.toList.contains '@' then token_lst ++ ["@"] else token_lst

/-- Embeds `re.split` for the delimiter pattern `(?:&amp;)|;|&|\\` of
`url_args_handler`: scanning left to right, at each position the literal
`&amp;` alternative is tried before the bare `&`, and `;`, `&`, `\`
each cut one character. `acc` holds the current chunk in reverse. -/
def argScan (acc : List Char) : List Char → List (List Char)
  | [] => [acc.reverse]
  | '&' :: 'a' :: 'm' :: 'p' :: ';' :: rest => acc.reverse :: argScan [] rest
  | '&' :: rest => acc.reverse :: argScan [] rest
  | ';' :: rest => acc.reverse :: argScan [] rest
  | '\\' :: rest => acc.reverse :: argScan [] rest
  | c :: rest => argScan (c :: acc) rest

/-- Embeds `pair.split('=')[:2]` followed by
`(splitted[0], '') if len(splitted) == 1 else splitted`: at most the first
two `=`-delimited fields of a chunk survive. -/
def pythonSplit2 (cs : List Char) : List Char × List Char :=
  match splitSep '=' cs with
  | [p] => (p, [])
  | p :: v :: _ => (p, v)
  | [] => ([], [])

/-- Embeds `url_tokenizer.url_args_handler`: the empty argument string
yields no pairs; otherwise each delimiter-separated chunk becomes the pair
of its word-split parameter and word-split value fields. -/
def url_args_handler (url_args : String) : List ParamValPair :=
  if url_args = "" then []
  else
    (argScan [] url_args.toList).map (fun chunk =>
      let pr := pythonSplit2 chunk
      (word_splitter (String.mk pr.1) MIN_SPLIT_LEN,
       word_splitter (String.mk pr.2) MIN_SPLIT_LEN))

/-- Embeds `url_tokenizer.url_tokenizer`: decode, structurally split, then
tokenize the domain, path and argument zones. The token-expansion stage is
commented out in the source and therefore absent here. -/
def url_tokenizer (url : String) : Except PyError UrlData := do
  let url_decoded := url_html_decoder url
  let (protocol, domains_raw, path_raw, args_raw) ← url_raw_splitter url_decoded
  let domains ← url_domains_handler domains_raw
  let path := url_path_handler path_raw
  let args := url_args_handler args_raw
  pure (protocol, domains, path, args)

/-- Embeds `url_tokenizer.flatten_url_data`. -/
def flatten_url_data (url_data : UrlData) : List String :=
  let (protocol, domains, path, args) := url_data
  let (sub_domain, main_domain, tld) := domains
  [protocol] ++ sub_domain ++ main_domain ++ [tld] ++ path ++ flatten_twice args

/-- A Python value reaching `expand_token`: in `expand_url_tokens` the
sub-domain, main-domain and path loops pass token strings, while the
argument loop `for token in args[i]` iterates over the two components of
the pair, which are lists of strings. -/
inductive PyTok where
  | str : String → PyTok
  | strList : List String → PyTok

/-- Embeds `url_tokenizer.expand_token`: `token.lower()` first (a Python
`AttributeError` when the value is a list, which has no `lower` method),
then the case-insensitive dictionary lookup; a miss returns the lowercased
token itself. -/
def expand_token (acrony_dict : List (String × String)) : PyTok → Except PyError String
  | PyTok.str tk =>
    let t := pyLower tk
    match acrony_dict.lookup t with
    | some expansion => Except.ok expansion
    | none => Except.ok t
  | PyTok.strList _ => Except.error PyError.attributeError

/-- Python `expansion.split(' ')` used to flatten a multi-word expansion
phrase into tokens. -/
def splitSpace (s : String) : List String :=
  pySplit ' ' s

/-- Embeds `url_tokenizer.expand_url_tokens`: each sub-domain, main-domain
and path token is expanded and the resulting phrases flattened in place by
`flat`; the `domain_ending` is left untouched. The argument loop applies
`expand_token` to each component of the pair `args[i]` — a list of
strings, so `.lower()` raises `AttributeError` for every URL with a
non-empty argument zone. -/
def expand_url_tokens (acrony_dict : List (String × String)) (url_tuple : UrlData) :
    Except PyError UrlData := do
  let (protocol, domains, path, args) := url_tuple
  let (sub_domain, main_domain, domain_ending) := domains
  let sub2 ← sub_domain.mapM (fun tk => (expand_token acrony_dict (PyTok.str tk)).map splitSpace)
  let main2 ← main_domain.mapM (fun tk => (expand_token acrony_dict (PyTok.str tk)).map splitSpace)
  let path2 ← path.mapM (fun tk => (expand_token acrony_dict (PyTok.str tk)).map splitSpace)
  let args2 ← args.mapM (fun pr => do
    let p ← expand_token acrony_dict (PyTok.strList pr.1)
    let v ← expand_token acrony_dict (PyTok.strList pr.2)
    pure (splitSpace p, splitSpace v))
  pure (protocol, (flatten sub2, flatten main2, domain_ending), flatten path2, args2)

/-- A small acronym table standing for the `AcronymsFile.csv` contents the
repository tests exercise. -/
def sampleAcronyms : List (String × String) :=
  [("cs", "computer science"),
   ("nlp", "natural language processing"),
   ("www", "world wide web"),
   ("msu", "michigan state university")]

/-- Embeds `featurizer.UNTRUSTWORTHY_TLDS`. The source writes the adjacent
string literals `'ink' 'lk'`, which Python concatenates into the single
element `"inklk"`; the embedded set keeps that artefact. -/
def UNTRUSTWORTHY_TLDS : List String :=
  ["ga", "tk", "ml", "cf", "surf", "su", "ba", "cyou", "support", "bd", "th",
   "casa", "pk", "top", "id", "link", "sa", "in", "xyz", "pw", "monster",
   "inklk", "wang", "cc", "vn", "np", "ec", "tr", "shop", "ge", "pe",
   "ke", "xn--p1ai", "buzz", "ng", "ir", "me", "ma", "digital", "at", "live",
   "club", "services", "icu", "cl", "it", "pl", "cam", "my", "ru", "today",
   "ae", "sg"]

/-- Embeds the regex `(\d+\.){3}\d+` of `domain_is_ip_address` applied as a
prefix match: three greedy digit runs each followed by a dot, then a final
digit run (deterministic, since the digit class excludes the dot). -/
def digitsThenDot (cs : List Char) : Option (List Char) :=
  let ds := cs.takeWhile (fun c => c.isDigit)
  if ds.isEmpty then none
  else
    match cs.drop ds.length with
    | '.' :: r => some r
    | _ => none

/-- Whether the domain string looks like an IPv4 literal,
`re.match(r'(\d+\.){3}\d+', domains_raw)`. -/
def domainIsIpAddress (cs : List Char) : Bool :=
  match digitsThenDot cs with
  | none => false
  | some r1 =>
    match digitsThenDot r1 with
    | none => false
    | some r2 =>
      match digitsThenDot r2 with
      | none => false
      | some r3 => !(r3.takeWhile (fun c => c.isDigit)).isEmpty

/-- Embeds the state of `featurizer.UrlFeaturizer` after construction.
Embedding vectors are abstracted to integer lists; `embedPrefixStr` is the
`embed_prefix` attribute (the `/c/en/` style namespace of spec 4.9);
`verbose` printing is not modelled. -/
structure UrlFeaturizer where
  expand_tokens : Bool
  embedPrefixStr : String
  sub_domain_max_len : Nat
  main_domain_max_len : Nat
  path_max_len : Nat
  arg_max_len : Nat
  N : Nat
  embeddings_index : List (String × List Int)
  embedding_dim : Nat
  avg_vec : List Int
  hand_picked_feat_len : Nat
  is_sequential : Bool

/-- Embeds `UrlFeaturizer.__calc_n__`: the sum of the four zone capacities
plus one slot for the domain ending. -/
def calc_n (f : UrlFeaturizer) : Nat :=
  f.sub_domain_max_len + f.main_domain_max_len + 1 + f.path_max_len + f.arg_max_len

/-- Association lookup in the embedding index. -/
def findVec : List (String × List Int) → String → Option (List Int)
  | [], _ => none
  | (k, v) :: rest, key => if k = key then some v else findVec rest key

/-- Embeds `UrlFeaturizer.__get_embed__`: look the prefixed token up in the
embedding index, falling back to the average vector on a miss. -/
def get_embed (f : UrlFeaturizer) (token : String) : List Int :=
  match findVec f.embeddings_index (f.embedPrefixStr ++ token) with
  | some v => v
  | none => f.avg_vec

/-- Embeds `UrlFeaturizer.__word_embed__`: an all-zero `(mat_len, dim)`
matrix whose leading rows are the embeddings of the first `mat_len`
tokens; surplus tokens are dropped and missing rows stay zero. -/
def word_embed (f : UrlFeaturizer) (tokens : List String) (mat_len : Nat) :
    List (List Int) :=
  let filled := (tokens.take mat_len).map (get_embed f)
  filled ++ List.replicate (mat_len - filled.length) (List.replicate f.embedding_dim 0)

/-- Embeds `UrlFeaturizer.__create_positional_word_matrix__`: five
fixed-capacity blocks (sub-domains, main domain, domain ending, path,
flattened args) concatenated in order. -/
def create_positional_word_matrix (f : UrlFeaturizer) (url_data : UrlData) :
    List (List Int) :=
  let (_, domains, path, args) := url_data
  let (sub_domains, main_domain, domain_ending) := domains
  let args_flat := flatten_twice args
  word_embed f sub_domains f.sub_domain_max_len ++
    word_embed f main_domain f.main_domain_max_len ++
    word_embed f [domain_ending] 1 ++
    word_embed f path f.path_max_len ++
    word_embed f args_flat f.arg_max_len

/-- Embeds `UrlFeaturizer.__create_sequential_word_matrix__`: all zone
tokens concatenated first, then one take-first-N/zero-pad pass against the
total capacity `N`. -/
def create_sequential_word_matrix (f : UrlFeaturizer) (url_data : UrlData) :
    List (List Int) :=
  let (_, domains, path, args) := url_data
  let (sub_domains, main_domain, domain_ending) := domains
  let args_flat := flatten_twice args
  word_embed f (sub_domains ++ main_domain ++ [domain_ending] ++ path ++ args_flat) f.N

/-- The word-matrix builder selected at construction by `is_sequential`. -/
def create_word_matrix (f : UrlFeaturizer) (url_data : UrlData) : List (List Int) :=
  if f.is_sequential then create_sequential_word_matrix f url_data
  else create_positional_word_matrix f url_data

/-- Number of digit characters in a list of characters. -/
def numDigits (cs : List Char) : Int :=
  (cs.countP (fun c => c.isDigit) : Int)

/-- Embeds `UrlFeaturizer.__create_hand_picked_features__`: the fixed-order
20-entry vector of structural counts. The method re-derives the raw groups
with `url_raw_splitter` (which can raise), uses no featurizer state, and
`flatten` over lists of strings yields their characters. -/
def create_hand_picked_features (url : String) (url_data : UrlData) :
    Except PyError (List Int) := do
  let words := flatten_url_data url_data
  let url_decoded := url_html_decoder url
  let (_, domains_raw, path_raw, args_raw) ← url_raw_splitter url_decoded
  let domain_len : Int := (domains_raw.length : Int)
  let path_len : Int := (path_raw.length : Int)
  let args_len : Int := (args_raw.length : Int)
  let dot_count_in_path_and_args : Int :=
    ((path_raw.toList.count '.' : Int) + (args_raw.toList.count '.' : Int))
  let capital_count : Int := (url_decoded.toList.countP (fun c => c.isUpper) : Int)
  let domain_is_ip_address : Int := if domainIsIpAddress domains_raw.toList then 1 else 0
  let contain_suspicious_symbol : Int :=
    if args_raw.toList.contains '\\' || args_raw.toList.contains ':' then 1 else 0
  let (protocol, domains, path, args) := url_data
  let (sub_domains, main_domain, domain_ending) := domains
  let contains_at_symbol : Int := if path.getLast? = some "@" then 1 else 0
  let is_https : Int := if protocol = "https" then 1 else 0
  let num_main_domain_words : Int := (main_domain.length : Int)
  let num_sub_domains : Int := (sub_domains.length : Int)
  let is_www : Int := if sub_domains.head? = some "www" then 1 else 0
  let is_www_weird : Int :=
    match sub_domains.head? with
    | some s =>
      (match s.toList with
       | 'w' :: 'w' :: 'w' :: c :: _ => if c = Char.ofNat 10 then 0 else 1
       | _ => 0)
    | none => 0
  let num_path_words : Int := (path.length : Int) - contains_at_symbol
  let domain_end_verdict : Int := if UNTRUSTWORTHY_TLDS.contains domain_ending then 1 else 0
  let sub_domains_num_digits : Int := numDigits (flatten (sub_domains.map String.toList))
  let path_num_digits : Int := numDigits (flatten (path.map String.toList))
  let args_num_digits : Int := numDigits (flatten ((flatten_twice args).map String.toList))
  let total_num_digits : Int := sub_domains_num_digits + path_num_digits + args_num_digits
  let word_court_in_url : Int := (words.length : Int) - contains_at_symbol
  pure [is_https, num_main_domain_words, num_sub_domains,
        is_www, is_www_weird, num_path_words, domain_end_verdict,
        sub_domains_num_digits, path_num_digits, args_num_digits,
        total_num_digits, contains_at_symbol, word_court_in_url,
        domain_len, path_len, args_len,
        dot_count_in_path_and_args, capital_count,
        domain_is_ip_address, contain_suspicious_symbol]

/-- Whether a Python call binds when every supplied keyword argument names
a declared parameter of the callee; an unexpected keyword raises
`TypeError` before the callee body runs. -/
def pyAcceptsKeywords (params kwargs : List String) : Bool :=
  kwargs.all (fun k => params.contains k)

/-- The declared parameters of `url_tokenizer.url_tokenizer` (line 18 of
url_tokenizer.py): a single positional `url`. -/
def url_tokenizer_params : List String :=
  ["url"]

/-- Embeds the call `url_tokenizer(url, expand_tokens=self.expand_tokens)`
made by `UrlFeaturizer.__featurize__` (featurizer.py line 396): the callee
declares no `expand_tokens` parameter, so the keyword-binding check fails
with `TypeError` and the tokenizer body is never reached. -/
def url_tokenizer_kwcall (_f : UrlFeaturizer) (url : String) : Except PyError UrlData :=
  if pyAcceptsKeywords url_tokenizer_params ["expand_tokens"] then url_tokenizer url
  else Except.error PyError.typeError

/-- The body of the `try` block of `UrlFeaturizer.__featurize__`: tokenize
(through the keyword call the source makes), hand-picked features, then
the word matrix. -/
def featurizePipeline (f : UrlFeaturizer) (url : String) :
    Except PyError (List Int × List (List Int)) := do
  let url_data ← url_tokenizer_kwcall f url
  let feat_vec ← create_hand_picked_features url url_data
  let word_matrix := create_word_matrix f url_data
  pure (feat_vec, word_matrix)

/-- The zero-filled placeholder pair the `except` branch of
`__featurize__` returns: a zero vector of the declared hand-picked length
and an all-zero `(N, embedding_dim)` matrix. -/
def placeholderPair (f : UrlFeaturizer) : List Int × List (List Int) :=
  (List.replicate f.hand_picked_feat_len 0,
   List.replicate f.N (List.replicate f.embedding_dim 0))

/-- Embeds `UrlFeaturizer.__featurize__`, the single-URL entry of
`featurize`: any exception inside the pipeline is caught and replaced by
the placeholder pair, so the function is total. -/
def featurizeSingle (f : UrlFeaturizer) (url : String) : List Int × List (List Int) :=
  match featurizePipeline f url with
  | Except.ok res => res
  | Except.error _ => placeholderPair f

/-- Python truthiness of an optional integer argument: `None` and `0` are
falsy, every other count truthy — the guard `if sub_domain_max_len:` of
`set_hyperparams`. -/
def pyTruthy : Option Nat → Bool
  | none => false
  | some v => v != 0

/-- Embeds `UrlFeaturizer.set_hyperparams`: each truthy argument overwrites
its capacity field, then `N` is recomputed with `__calc_n__`; nothing else
is touched. -/
def set_hyperparams (f : UrlFeaturizer)
    (sub_domain_max_len main_domain_max_len path_max_len arg_max_len : Option Nat) :
    UrlFeaturizer :=
  let f1 := if pyTruthy sub_domain_max_len then
    { f with sub_domain_max_len := sub_domain_max_len.getD 0 } else f
  let f2 := if pyTruthy main_domain_max_len then
    { f1 with main_domain_max_len := main_domain_max_len.getD 0 } else f1
  let f3 := if pyTruthy path_max_len then
    { f2 with path_max_len := path_max_len.getD 0 } else f2
  let f4 := if pyTruthy arg_max_len then
    { f3 with arg_max_len := arg_max_len.getD 0 } else f3
  { f4 with N := calc_n f4 }

/-- A featurizer built from the test sample embedding family: four known
tokens of dimension 2, unit capacities (as `create_feat(1, 1, 1, 1)` in
tests/test_featurizer.py), positional layout. -/
def sampleFeat : UrlFeaturizer where
  expand_tokens := false
  embedPrefixStr := ""
  sub_domain_max_len := 1
  main_domain_max_len := 1
  path_max_len := 1
  arg_max_len := 1
  N := 5
  embeddings_index := [("test", [10, 20]), ("com", [30, 40]), ("arg", [50, 60]), ("val", [70, 80])]
  embedding_dim := 2
  avg_vec := [1, 2]
  hand_picked_feat_len := 20
  is_sequential := false

/-- Well-formedness of a featurizer's embedding state: every indexed
vector and the fallback vector have the declared dimension. -/
def wfEmbedding (f : UrlFeaturizer) : Prop :=
  (∀ p ∈ f.embeddings_index, p.2.length = f.embedding_dim) ∧
    f.avg_vec.length = f.embedding_dim

/-- Shape predicate for the embedded integer matrices. -/
def isMatrixShape (m : List (List Int)) (r c : Nat) : Prop :=
  m.length = r ∧ ∀ row ∈ m, row.length = c

/-- C10: word_splitter on the empty string returns the empty sequence for
every minimum-length threshold, never the singleton of the empty string. -/
theorem word_splitter_empty_string :
    ∀ min_split_len : Nat, word_splitter "" min_split_len = [] ∧
      word_splitter "" min_split_len ≠ [""] := by
  intro n
  constructor
  · simp [word_splitter]
  · simp [word_splitter]

/-- C4 counterexample: "part8" has length 5, equal to the default
threshold, yet the splitter segments it (as the repository's own test
`test_many_subdomains` asserts), and the empty string maps to `[]`;
both refute the claim that every string of length at most the threshold
is returned unchanged as a single-element sequence. -/
theorem word_splitter_threshold_cex :
    ("part8".length ≤ MIN_SPLIT_LEN ∧
      word_splitter "part8" MIN_SPLIT_LEN = ["part", "8"] ∧
      word_splitter "part8" MIN_SPLIT_LEN ≠ ["part8"]) ∧
    ("".length ≤ MIN_SPLIT_LEN ∧ word_splitter "" MIN_SPLIT_LEN = []) := by
  refine ⟨⟨by decide, by decide, by decide⟩, by decide, by decide⟩

/-- C4 amended: every non-empty string whose length is strictly below the
threshold is returned unchanged as a single-element sequence. -/
theorem word_splitter_below_threshold_id (text : String) (min_split_len : Nat)
    (hne : text ≠ "") (hlen : text.length < min_split_len) :
    word_splitter text min_split_len = [text] := by
  unfold word_splitter
  rw [if_neg hne, if_neg (by omega)]

/-- Witness for `word_splitter_below_threshold_id` at the concrete input
"abc" with the default threshold. -/
theorem word_splitter_below_threshold_id_witness :
    word_splitter "abc" MIN_SPLIT_LEN = ["abc"] :=
  word_splitter_below_threshold_id "abc" MIN_SPLIT_LEN (by decide) (by decide)

/-- Characterization of the Python one-character split: the first field is
the run of non-separator characters after the accumulator, and the
remaining fields are the split of what follows the first separator. -/
theorem splitSepGo_char (sep : Char) :
    ∀ (cs acc : List Char),
      splitSepGo sep acc cs =
        (acc.reverse ++ cs.takeWhile (fun c => !(c == sep))) ::
          (match cs.dropWhile (fun c => !(c == sep)) with
           | [] => []
           | _ :: rest => splitSep sep rest) := by
  intro cs
  induction cs with
  | nil => intro acc; simp [splitSepGo]
  | cons c rest ih =>
    intro acc
    by_cases h : c = sep
    · subst h
      simp [splitSepGo, List.takeWhile_cons, List.dropWhile_cons, splitSep]
    · have hb : (c == sep) = false := by simp [h]
      simp [splitSepGo, h, List.takeWhile_cons, List.dropWhile_cons, hb, ih]

/-- Number of fields produced by the Python one-character split: one more
than the number of separator occurrences. -/
theorem splitSepGo_length (sep : Char) :
    ∀ (cs acc : List Char),
      (splitSepGo sep acc cs).length = cs.count sep + 1 := by
  intro cs
  induction cs with
  | nil => intro acc; simp [splitSepGo, List.count_nil]
  | cons c rest ih =>
    intro acc
    by_cases h : c = sep
    · subst h
      simp [splitSepGo, splitSep, ih, List.count_cons]
    · have hb : (c == sep) = false := by simp [h]
      simp [splitSepGo, h, ih, List.count_cons, hb]

/-- Python's `pair.split('=')[:2]` keeps exactly the text before the first
`=` and the field between the first and second `=`. -/
theorem pythonSplit2_eq (cs : List Char) :
    pythonSplit2 cs =
      (cs.takeWhile (fun c => !(c == '=')),
        ((cs.dropWhile (fun c => !(c == '='))).drop 1).takeWhile (fun c => !(c == '='))) := by
  unfold pythonSplit2 splitSep
  rw [splitSepGo_char]
  cases hd : cs.dropWhile (fun c => !(c == '=')) with
  | nil => simp
  | cons d rest =>
    have h2 : splitSep '=' rest =
        (rest.takeWhile (fun c => !(c == '='))) ::
          (match rest.dropWhile (fun c => !(c == '=')) with
           | [] => []
           | _ :: r => splitSep '=' r) := by
      unfold splitSep
      rw [splitSepGo_char]
      simp only [splitSep, List.nil_append, List.reverse_nil]
    simp [h2]

/-- A successful association lookup returns a pair of the index. -/
theorem findVec_mem :
    ∀ (l : List (String × List Int)) (key : String) (v : List Int),
      findVec l key = some v → (key, v) ∈ l := by
  intro l
  induction l with
  | nil => intro key v h; simp [findVec] at h
  | cons p rest ih =>
    intro key v h
    by_cases hk : p.1 = key
    · subst hk
      simp [findVec] at h
      simp [← h]
    · simp [findVec, hk] at h
      exact List.mem_cons_of_mem _ (ih key v h)

/-- A word-embedding block always has exactly the requested number of
rows. -/
theorem word_embed_length (f : UrlFeaturizer) (tokens : List String) (mat_len : Nat) :
    (word_embed f tokens mat_len).length = mat_len := by
  unfold word_embed
  simp [List.length_append, List.length_replicate, List.length_take]

/-- Every row of a word-embedding block has the declared dimension,
whether it is a looked-up vector, the fallback vector, or a zero row. -/
theorem word_embed_rows (f : UrlFeaturizer) (hwf : wfEmbedding f)
    (tokens : List String) (mat_len : Nat) :
    ∀ row ∈ word_embed f tokens mat_len, row.length = f.embedding_dim := by
  intro row hrow
  unfold word_embed at hrow
  rcases List.mem_append.mp hrow with hm | hm
  · rcases List.mem_map.mp hm with ⟨t, _, rfl⟩
    unfold get_embed
    cases hfl : findVec f.embeddings_index (f.embedPrefixStr ++ t) with
    | none => exact hwf.2
    | some v => exact hwf.1 _ (findVec_mem _ _ _ hfl)
  · rw [List.eq_of_mem_replicate hm]
    simp

/-- A successful structural match always produces a domain group of the
form `a ++ "." ++ b`: the grammar's mandatory dot before the ending. -/
theorem urlRegexMatch_domain (cs : List Char) (g : String × String × String × String)
    (h : urlRegexMatch cs = some g) :
    ∃ a b, g.2.1 = String.mk (a ++ '.' :: b) := by
  unfold urlRegexMatch at h
  rw [Option.bind_eq_some] at h
  obtain ⟨pr, _, h⟩ := h
  rw [Option.map_eq_some'] at h
  obtain ⟨abr, _, hg⟩ := h
  exact ⟨abr.1, abr.2.1, by rw [← hg]⟩

/-- C5: `url_raw_splitter` fails — with the assertion error carrying the
offending string — exactly when the URL grammar does not match the
lowercased input, and returns the matched 4-tuple of raw groups whenever
the grammar does match. -/
theorem url_raw_splitter_grammar_exact :
    ∀ url : String,
      (url_raw_splitter url = Except.error (PyError.assertionError url) ↔
        urlRegexMatch (pyLower url).toList = none) ∧
      (∀ groups, urlRegexMatch (pyLower url).toList = some groups →
        url_raw_splitter url = Except.ok groups) := by
  intro url
  constructor
  · unfold url_raw_splitter
    cases h : urlRegexMatch (pyLower url).toList with
    | none => simp
    | some g => simp
  · intro groups h
    unfold url_raw_splitter
    rw [h]

/-- Witness for `url_raw_splitter_grammar_exact`: the grammar matches
"https://test.com" and the splitter returns its four raw groups. -/
theorem url_raw_splitter_grammar_exact_witness :
    url_raw_splitter "https://test.com" = Except.ok ("https", "test.com", "", "") :=
  (url_raw_splitter_grammar_exact "https://test.com").2
    ("https", "test.com", "", "") (by decide)

/-- C8: a successful structural split always yields a domain string with a
dot, hence at least two dot-labels, on which `url_domains_handler`
succeeds (its index error is unreachable); on fewer than two labels the
handler fails with the index error. -/
theorem url_domains_in_bounds_after_split :
    (∀ (url : String) (groups : String × String × String × String),
      url_raw_splitter url = Except.ok groups →
        groups.2.1.toList.contains '.' = true ∧
        2 ≤ (pySplit '.' groups.2.1).length ∧
        ∃ d, url_domains_handler groups.2.1 = Except.ok d) ∧
    (∀ s : String, (pySplit '.' s).length < 2 →
      url_domains_handler s = Except.error PyError.indexError) := by
  constructor
  · intro url groups hok
    have hmatch : urlRegexMatch (pyLower url).toList = some groups := by
      unfold url_raw_splitter at hok
      cases h : urlRegexMatch (pyLower url).toList with
      | none => rw [h] at hok; exact absurd hok (by simp)
      | some g =>
        rw [h] at hok
        simp at hok
        rw [hok]
    obtain ⟨a, b, hdom⟩ := urlRegexMatch_domain _ _ hmatch
    have htl : groups.2.1.toList = a ++ '.' :: b := by
      rw [hdom]
      rfl
    have hcontains : groups.2.1.toList.contains '.' = true := by
      rw [htl]
      simp [List.contains_eq_any_beq]
    have hlen : 2 ≤ (pySplit '.' groups.2.1).length := by
      unfold pySplit splitSep
      rw [List.length_map, splitSepGo_length, htl]
      have : 1 ≤ (a ++ '.' :: b).count '.' := by
        rw [List.count_append]
        have : 1 ≤ ('.' :: b).count '.' := by
          rw [List.count_cons]
          simp
        omega
      omega
    refine ⟨hcontains, hlen, ?_⟩
    cases hrev : (pySplit '.' groups.2.1).reverse with
    | nil =>
      rw [← List.length_reverse, hrev] at hlen
      exact absurd hlen (by simp)
    | cons ending tl =>
      cases tl with
      | nil =>
        rw [← List.length_reverse, hrev] at hlen
        exact absurd hlen (by simp)
      | cons main subs_rev =>
        refine ⟨(flatten (subs_rev.reverse.map (fun w => word_splitter w MIN_SPLIT_LEN)),
          word_splitter main MIN_SPLIT_LEN, ending), ?_⟩
        unfold url_domains_handler
        simp only [hrev]
  · intro s hlt
    unfold url_domains_handler
    cases hrev : (pySplit '.' s).reverse with
    | nil => simp only [hrev]
    | cons ending tl =>
      cases tl with
      | nil => simp only [hrev]
      | cons main subs_rev =>
        rw [← List.length_reverse, hrev] at hlt
        exact absurd hlt (by simp)

/-- Witness for `url_domains_in_bounds_after_split`: the split of
"https://test.com" yields the two-label domain "test.com" on which the
domain handler succeeds, while the single-label string "x" makes the
handler fail. -/
theorem url_domains_in_bounds_after_split_witness :
    ("test.com".toList.contains '.' = true ∧
      2 ≤ (pySplit '.' "test.com").length ∧
      ∃ d, url_domains_handler "test.com" = Except.ok d) ∧
    url_domains_handler "x" = Except.error PyError.indexError :=
  ⟨url_domains_in_bounds_after_split.1 "https://test.com"
      ("https", "test.com", "", "") (by decide),
    url_domains_in_bounds_after_split.2 "x" (by decide)⟩

/-- C2: whenever any stage of the single-URL pipeline raises, `featurize`
catches the exception and returns the zero vector of the declared
hand-picked length paired with the all-zero `(N, embedding_dim)` matrix;
`featurizeSingle` is a total function, so no exception escapes it. -/
theorem featurize_single_placeholder_on_error :
    ∀ (f : UrlFeaturizer) (url : String) (e : PyError),
      featurizePipeline f url = Except.error e →
      featurizeSingle f url =
        (List.replicate f.hand_picked_feat_len 0,
          List.replicate f.N (List.replicate f.embedding_dim 0)) := by
  intro f url e h
  unfold featurizeSingle
  rw [h]
  rfl

/-- Witness for `featurize_single_placeholder_on_error`: the pipeline
fails on "notaurl" and the returned pair is the zero placeholder of the
sample featurizer's declared shape. -/
theorem featurize_single_placeholder_on_error_witness :
    featurizePipeline sampleFeat "notaurl" = Except.error PyError.typeError ∧
    featurizeSingle sampleFeat "notaurl" =
      (List.replicate 20 0, List.replicate 5 (List.replicate 2 0)) :=
  ⟨by decide,
    featurize_single_placeholder_on_error sampleFeat "notaurl" PyError.typeError (by decide)⟩

/-- C1: the structural splitter and tokenizer succeed on
"http://test.com" and the hand-picked feature extractor would produce the
documented vector (first entry 0 for http, 1 for https), yet `featurize`
returns the all-zero placeholder for both URLs, because `__featurize__`
passes the keyword `expand_tokens` that `url_tokenizer` does not declare,
raising `TypeError` on every call. -/
theorem featurize_single_zero_placeholder_bug :
    pyAcceptsKeywords url_tokenizer_params ["expand_tokens"] = false ∧
    url_raw_splitter (url_html_decoder "http://test.com") =
      Except.ok ("http", "test.com", "", "") ∧
    url_tokenizer "http://test.com" =
      Except.ok ("http", ([], ["test"], "com"), [], []) ∧
    create_hand_picked_features "http://test.com" ("http", ([], ["test"], "com"), [], []) =
      Except.ok [0, 1, 0, 0, 0, 0, 0, 0, 0, 0, 0, 0, 3, 8, 0, 0, 0, 0, 0, 0] ∧
    url_tokenizer "https://test.com" =
      Except.ok ("https", ([], ["test"], "com"), [], []) ∧
    create_hand_picked_features "https://test.com" ("https", ([], ["test"], "com"), [], []) =
      Except.ok [1, 1, 0, 0, 0, 0, 0, 0, 0, 0, 0, 0, 3, 8, 0, 0, 0, 0, 0, 0] ∧
    featurizeSingle sampleFeat "http://test.com" = placeholderPair sampleFeat ∧
    featurizeSingle sampleFeat "https://test.com" = placeholderPair sampleFeat := by
  refine ⟨by decide, by decide, by decide, by decide, by decide, by decide, by decide, by decide⟩

/-- C3: the derived total `N` is the sum of the four capacities plus one,
and both word-matrix layouts produce a matrix of exactly `(N, dim)` rows
and columns for every tokenized URL, however many tokens it has. -/
theorem embedding_matrix_shape_invariant :
    ∀ f : UrlFeaturizer, wfEmbedding f → f.N = calc_n f →
      calc_n f = f.sub_domain_max_len + f.main_domain_max_len + 1 +
          f.path_max_len + f.arg_max_len ∧
      ∀ url_data : UrlData,
        isMatrixShape (create_positional_word_matrix f url_data) (calc_n f) f.embedding_dim ∧
        isMatrixShape (create_sequential_word_matrix f url_data) (calc_n f) f.embedding_dim := by
  intro f hwf hN
  refine ⟨rfl, ?_⟩
  intro url_data
  obtain ⟨protocol, ⟨sub_domains, main_domain, domain_ending⟩, path, args⟩ := url_data
  constructor
  · constructor
    · unfold create_positional_word_matrix
      simp only [List.length_append, word_embed_length]
      unfold calc_n
      omega
    · intro row hrow
      unfold create_positional_word_matrix at hrow
      simp only [List.mem_append] at hrow
      rcases hrow with ((((hm | hm) | hm) | hm) | hm) <;>
        exact word_embed_rows f hwf _ _ row hm
  · constructor
    · unfold create_sequential_word_matrix
      simp only [word_embed_length]
      omega
    · intro row hrow
      unfold create_sequential_word_matrix at hrow
      exact word_embed_rows f hwf _ _ row hrow

/-- Witness for `embedding_matrix_shape_invariant`: the sample featurizer
is well formed, its `N` is the capacity sum, and both layouts give a
5-by-2 matrix on a token-heavy tokenized URL. -/
theorem embedding_matrix_shape_invariant_witness :
    calc_n sampleFeat = 1 + 1 + 1 + 1 + 1 ∧
    isMatrixShape
      (create_positional_word_matrix sampleFeat
        ("http", (["a", "b"], ["test"], "com"), ["p", "q", "r"], [(["x"], ["y"])]))
      (calc_n sampleFeat) 2 ∧
    isMatrixShape
      (create_sequential_word_matrix sampleFeat
        ("http", (["a", "b"], ["test"], "com"), ["p", "q", "r"], [(["x"], ["y"])]))
      (calc_n sampleFeat) 2 := by
  have hwf : wfEmbedding sampleFeat := ⟨by decide, by decide⟩
  have h := embedding_matrix_shape_invariant sampleFeat hwf (by decide)
  exact ⟨h.1,
    (h.2 ("http", (["a", "b"], ["test"], "com"), ["p", "q", "r"], [(["x"], ["y"])])).1,
    (h.2 ("http", (["a", "b"], ["test"], "com"), ["p", "q", "r"], [(["x"], ["y"])])).2⟩

/-- C9: with positive capacities, `set_hyperparams` overwrites exactly the
provided capacity fields, recomputes `N` as their sum plus one, and leaves
the embedding index, dimension, fallback vector, prefix and hand-picked
length untouched — the embedding is never re-loaded. -/
theorem set_hyperparams_frame :
    ∀ (f : UrlFeaturizer) (s m p a : Option Nat),
      (∀ v, s = some v → 0 < v) → (∀ v, m = some v → 0 < v) →
      (∀ v, p = some v → 0 < v) → (∀ v, a = some v → 0 < v) →
      (set_hyperparams f s m p a).sub_domain_max_len = s.getD f.sub_domain_max_len ∧
      (set_hyperparams f s m p a).main_domain_max_len = m.getD f.main_domain_max_len ∧
      (set_hyperparams f s m p a).path_max_len = p.getD f.path_max_len ∧
      (set_hyperparams f s m p a).arg_max_len = a.getD f.arg_max_len ∧
      (set_hyperparams f s m p a).N =
        s.getD f.sub_domain_max_len + m.getD f.main_domain_max_len + 1 +
          p.getD f.path_max_len + a.getD f.arg_max_len ∧
      (set_hyperparams f s m p a).embeddings_index = f.embeddings_index ∧
      (set_hyperparams f s m p a).embedding_dim = f.embedding_dim ∧
      (set_hyperparams f s m p a).avg_vec = f.avg_vec ∧
      (set_hyperparams f s m p a).embedPrefixStr = f.embedPrefixStr ∧
      (set_hyperparams f s m p a).hand_picked_feat_len = f.hand_picked_feat_len ∧
      (set_hyperparams f s m p a).expand_tokens = f.expand_tokens ∧
      (set_hyperparams f s m p a).is_sequential = f.is_sequential := by
  intro f s m p a hs hm hp ha
  have hts : ∀ v, s = some v → pyTruthy s = true := by
    intro v hv
    subst hv
    simpa [pyTruthy] using Nat.pos_iff_ne_zero.mp (hs v rfl)
  have htm : ∀ v, m = some v → pyTruthy m = true := by
    intro v hv
    subst hv
    simpa [pyTruthy] using Nat.pos_iff_ne_zero.mp (hm v rfl)
  have htp : ∀ v, p = some v → pyTruthy p = true := by
    intro v hv
    subst hv
    simpa [pyTruthy] using Nat.pos_iff_ne_zero.mp (hp v rfl)
  have hta : ∀ v, a = some v → pyTruthy a = true := by
    intro v hv
    subst hv
    simpa [pyTruthy] using Nat.pos_iff_ne_zero.mp (ha v rfl)
  rcases s with _ | sv <;> rcases m with _ | mv <;>
    rcases p with _ | pv <;> rcases a with _ | av <;>
    simp_all [set_hyperparams, pyTruthy, calc_n, Option.getD]

/-- Witness for `set_hyperparams_frame` at the concrete reconfiguration
`set_hyperparams(4, 10, 20, 30)` of the sample featurizer, the exact call
of the repository's `test_set_hyperparam`. -/
theorem set_hyperparams_frame_witness :
    (set_hyperparams sampleFeat (some 4) (some 10) (some 20) (some 30)).sub_domain_max_len = 4 ∧
    (set_hyperparams sampleFeat (some 4) (some 10) (some 20) (some 30)).N = 65 ∧
    (set_hyperparams sampleFeat (some 4) (some 10) (some 20) (some 30)).embeddings_index =
      sampleFeat.embeddings_index ∧
    (set_hyperparams sampleFeat (some 4) (some 10) (some 20) (some 30)).avg_vec =
      sampleFeat.avg_vec := by
  have h := set_hyperparams_frame sampleFeat (some 4) (some 10) (some 20) (some 30)
    (by intro v hv; cases hv; decide) (by intro v hv; cases hv; decide)
    (by intro v hv; cases hv; decide) (by intro v hv; cases hv; decide)
  exact ⟨h.1, h.2.2.2.2.1, h.2.2.2.2.2.1, h.2.2.2.2.2.2.2.1⟩

/-- C6: the argument tokenizer keeps, for every chunk, exactly the text
before the first `=` as parameter and the field between the first and
second `=` as value (later fields dropped), word-splitting both sides; the
empty string yields no pairs; and the delimiters split as specified, with
the literal `&amp;` taking priority over the bare `&`, as the concrete
splits below show, in input order. -/
theorem url_args_handler_pairing :
    url_args_handler "" = [] ∧
    (∀ s : String, s ≠ "" →
      url_args_handler s = (argScan [] s.toList).map (fun chunk =>
        (word_splitter (String.mk (chunk.takeWhile (fun c => !(c == '=')))) MIN_SPLIT_LEN,
          word_splitter
            (String.mk
              (((chunk.dropWhile (fun c => !(c == '='))).drop 1).takeWhile (fun c => !(c == '='))))
            MIN_SPLIT_LEN))) ∧
    url_args_handler "sid=4&amp;ring=hent&amp;id=2&amp;list" =
      [(["sid"], ["4"]), (["ring"], ["hent"]), (["id"], ["2"]), (["list"], [])] ∧
    url_args_handler "a&amp;b" = [(["a"], []), (["b"], [])] ∧
    url_args_handler "a;b&c\\d" = [(["a"], []), (["b"], []), (["c"], []), (["d"], [])] ∧
    url_args_handler "a=b=c=d" = [(["a"], ["b"])] := by
  refine ⟨by decide, ?_, by decide, by decide, by decide, by decide⟩
  intro s hs
  unfold url_args_handler
  rw [if_neg hs]
  refine List.map_congr_left ?_
  intro chunk _
  rw [pythonSplit2_eq]

/-- Witness for `url_args_handler_pairing`: the pairing rule applied to
the concrete argument string "sid=4=9" keeps the field between the first
and second `=` and drops the rest. -/
theorem url_args_handler_pairing_witness :
    url_args_handler "sid=4=9" =
      (argScan [] "sid=4=9".toList).map (fun chunk =>
        (word_splitter (String.mk (chunk.takeWhile (fun c => !(c == '=')))) MIN_SPLIT_LEN,
          word_splitter
            (String.mk
              (((chunk.dropWhile (fun c => !(c == '='))).drop 1).takeWhile (fun c => !(c == '='))))
            MIN_SPLIT_LEN)) ∧
    url_args_handler "sid=4=9" = [(["sid"], ["4"])] :=
  ⟨(url_args_handler_pairing.2.1 "sid=4=9" (by decide)), by decide⟩

/-- C7: expanding the tokenized URL of the repository's own expansion test
fails with `AttributeError` because the source applies `expand_token` to
each component of an argument pair — a list, on which `.lower()` does not
exist — instead of to the tokens inside it; the lookup itself is
case-insensitive and flattens multi-word phrases in the other zones, but a
missed token maps to its lowercased form, not to itself. -/
theorem expand_url_tokens_attribute_error_bug :
    expand_url_tokens sampleAcronyms
        ("http", (["ed", "web", "3", "educ"], ["msu"], "edu"), ["ysi"],
          [(["nlp", "word"], ["ed"]), (["ed"], ["ed"])]) =
      Except.error PyError.attributeError ∧
    expand_token sampleAcronyms (PyTok.str "NLP") =
      Except.ok "natural language processing" ∧
    expand_token sampleAcronyms (PyTok.str "ZZZTOP") = Except.ok "zzztop" ∧
    expand_url_tokens sampleAcronyms
        ("http", (["www"], ["cs"], "org"), ["chsl", "cs"], []) =
      Except.ok ("http", (["world", "wide", "web"], ["computer", "science"], "org"),
        ["chsl", "computer", "science"], []) := by
  refine ⟨by decide, by decide, by decide, by decide⟩
